import Mathlib

/-!
Verification of the food-freshness-detector backend.

Shallow embedding of the Python sources under `backend/app/`:
* `utils/preprocessing.py` — `crop_bbox`, `bytes_to_pil`
* `inference/pipeline.py` — `_heuristic_freshness`, `run_inference`
* `models/loader.py` — `load_models`, `get_bundle`
* `routers/predict.py` — the `predict` request handler

Pixel coordinates and confidences are modelled as rationals (`ℚ`); Python's
`round(x, n)` is modelled as rounding `x * 10^n` to the nearest integer
(the two conventions agree away from exact ties, and every bound proved
here is attained at tie-free endpoints).  External capabilities (PIL's
codec, the YOLO detector, the torch classifier) enter as explicit
parameters, exactly at the interfaces the code calls them.
-/

namespace FoodFreshness

/-! ## Preprocessing (`utils/preprocessing.py`) -/

/-- The four coordinates `(x1, y1, x2, y2)` that `crop_bbox` passes to
`PIL.Image.crop`. -/
structure CropBounds where
  x1 : ℚ
  y1 : ℚ
  x2 : ℚ
  y2 : ℚ
deriving DecidableEq, Repr

/-- Width of the crop region handed to `PIL.Image.crop` (`x2 - x1`). -/
def CropBounds.width (c : CropBounds) : ℚ := c.x2 - c.x1

/-- Height of the crop region handed to `PIL.Image.crop` (`y2 - y1`). -/
def CropBounds.height (c : CropBounds) : ℚ := c.y2 - c.y1

/-- Embedding of `crop_bbox` from `utils/preprocessing.py`: pad the box by `padding`
times its own width/height on each side, clamp below at 0 and above at the
image width `w` / height `h`, and crop to the resulting bounds. -/
def crop_bbox (w h : ℚ) (box : ℚ × ℚ × ℚ × ℚ) (padding : ℚ) : CropBounds :=
  match box with
  | (x1, y1, x2, y2) =>
    let pad_x := (x2 - x1) * padding
    let pad_y := (y2 - y1) * padding
    ⟨max 0 (x1 - pad_x), max 0 (y1 - pad_y), min w (x2 + pad_x), min h (y2 + pad_y)⟩

/-- Specialisation of `crop_bbox` to its default padding `0.05`, the way `run_inference`
calls it (the spec's `cropWithPadding`). -/
def cropWithPadding (w h : ℚ) (box : ℚ × ℚ × ℚ × ℚ) : CropBounds :=
  crop_bbox w h box (5/100)

/-! ## Heuristic freshness (`inference/pipeline.py`, `_heuristic_freshness`) -/

/-- Python's `round(x, 2)`, on rationals. -/
def round2 (x : ℚ) : ℚ := (round (x * 100) : ℚ) / 100

/-- Python's `round(x, 4)`, on rationals. -/
def round4 (x : ℚ) : ℚ := (round (x * 10000) : ℚ) / 10000

/-- Embedding of `_heuristic_freshness` from `inference/pipeline.py`, parameterised by the
mean saturation and mean value of the (contrast-enhanced) HSV crop and by the
draw `r` of `random.uniform(0.0, 0.20)`. -/
def heuristic_freshness (saturation value r : ℚ) : String × ℚ :=
  if 80 < saturation ∧ (60 < value ∧ value < 220) then
    ("fresh", round2 (75/100 + r))
  else if 40 < saturation then
    ("semi-fresh", round2 (55/100 + r))
  else
    ("spoiled", round2 (60/100 + r))

/-! ## Detection pipeline (`inference/pipeline.py`, `run_inference`) -/

/-- A bounding box `[x1, y1, x2, y2]` as produced by `box.xyxy[0].tolist()`. -/
structure Box where
  x1 : ℚ
  y1 : ℚ
  x2 : ℚ
  y2 : ℚ
deriving DecidableEq, Repr

/-- One detector candidate: class id, the class name the pipeline reads from
`bundle.yolo.names.get(cls_id, "food")`, confidence, and box. -/
structure Detection where
  cls_id : ℤ
  name : String
  conf : ℚ
  box : Box
deriving DecidableEq, Repr

/-- Constant `COCO_FOOD_CLASSES` from `inference/pipeline.py`. -/
def COCO_FOOD_CLASSES : List ℤ :=
  [46, 47, 48, 49, 50, 51, 52, 53, 54, 55, 56, 57, 58, 59, 60, 61]

/-- Constant `FOOD_LABELS` from `models/loader.py`. -/
def FOOD_LABELS : List String :=
  ["apple", "banana", "orange", "strawberry", "grape",
   "mango", "pineapple", "watermelon", "lemon", "cherry",
   "carrot", "broccoli", "tomato", "cucumber", "lettuce",
   "potato", "onion", "pepper", "avocado", "corn",
   "bread", "cake", "sandwich", "pizza", "hotdog",
   "sushi", "steak", "chicken", "fish", "egg"]

/-- Python's `str.lower()` as the pipeline applies it to class names and
food labels: character-wise lower-casing. -/
def lower (s : String) : String := ⟨s.data.map Char.toLower⟩

/-- Python's `name.replace(" ", "_")`: with a single-character pattern this
is a character map. -/
def underscoreSpaces (s : String) : String :=
  ⟨s.data.map (fun c => if c = ' ' then '_' else c)⟩

/-- The food filter of `run_inference`: a candidate is kept unless
`cls_id not in COCO_FOOD_CLASSES and name.lower() not in
{l.lower() for l in bundle.food_labels}`. -/
def survives (foodLabels : List String) (d : Detection) : Bool :=
  (COCO_FOOD_CLASSES.contains d.cls_id) ||
    ((foodLabels.map lower).contains (lower d.name))

/-- The running state of the best-candidate loop in `run_inference`
(`best_box`, `best_conf`, `best_label`). -/
structure BestState where
  best_box : Option Box
  best_conf : ℚ
  best_label : String
deriving DecidableEq, Repr

/-- Initial loop state: `best_box = None`, `best_conf = 0.0`,
`best_label = "unknown"`. -/
def initBest : BestState := ⟨none, 0, "unknown"⟩

/-- One iteration of the loop body of `run_inference`: skip non-food
candidates, otherwise update the best candidate when `conf > best_conf`. -/
def stepBest (foodLabels : List String) (s : BestState) (d : Detection) : BestState :=
  if survives foodLabels d then
    if s.best_conf < d.conf then
      ⟨some d.box, d.conf, underscoreSpaces (lower d.name)⟩
    else s
  else s

/-- The whole selection loop of `run_inference` over the detector output. -/
def selectBest (foodLabels : List String) (dets : List Detection) : BestState :=
  dets.foldl (stepBest foodLabels) initBest

/-- Dataclass `PredictionResult` from `inference/pipeline.py`. -/
structure PredictionResult where
  food : String
  freshness : String
  confidence : ℚ
  detected : Bool
  bbox : Option Box
deriving DecidableEq, Repr

/-- Embedding of `run_inference` from `inference/pipeline.py`.  The image enters through
its width `w` and height `h` (all the pipeline itself reads from it), the
detector output as the list `dets`, and `_classify_freshness` as the
function `estimate` from the crop bounds to `(label, confidence)`. -/
def run_inference (w h : ℚ) (estimate : CropBounds → String × ℚ)
    (foodLabels : List String) (dets : List Detection) : PredictionResult :=
  let s := selectBest foodLabels dets
  match s.best_box with
  | none => ⟨"unknown", "unknown", 0, false, none⟩
  | some b =>
    if s.best_conf < 10/100 then
      ⟨"unknown", "unknown", 0, false, none⟩
    else
      let crop := crop_bbox w h (b.x1, b.y1, b.x2, b.y2) (5/100)
      let fr := estimate crop
      ⟨s.best_label, fr.1, round4 (s.best_conf * (4/10) + fr.2 * (6/10)), true, some b⟩

/-! ## Model loader (`models/loader.py`) -/

/-- Dataclass `ModelBundle` from `models/loader.py`.  The detector handle, classifier
handle and device are opaque to everything this file verifies, so they are
type parameters `Y`, `C`, `D`. -/
structure ModelBundle (Y C D : Type) where
  yolo : Y
  freshness_classifier : Option C
  device : D
  food_labels : List String
  freshness_labels : List String
deriving DecidableEq

/-- Embedding of `load_models` from `models/loader.py`, as a function of the module-level
singleton `_bundle` (the `Option (ModelBundle Y C D)` state, threaded
explicitly).  The external loading steps `_resolve_device`, `_load_yolo` and
`_load_freshness_classifier` are parameters; `_load_freshness_classifier`
returns `none` when the weights file is absent or fails to load. -/
def load_models {Y C D : Type}
    (resolveDevice : String → D)
    (loadYolo : String → D → Y)
    (loadClassifier : String → D → Option C)
    (yolo_path freshness_path device_str : String)
    (s : Option (ModelBundle Y C D)) :
    ModelBundle Y C D × Option (ModelBundle Y C D) :=
  match s with
  | some b => (b, some b)
  | none =>
    let device := resolveDevice device_str
    let yolo := loadYolo yolo_path device
    let freshness := loadClassifier freshness_path device
    let b : ModelBundle Y C D :=
      ⟨yolo, freshness, device, FOOD_LABELS, ["fresh", "semi-fresh", "spoiled"]⟩
    (b, some b)

/-- The error `get_bundle` raises (a `RuntimeError` in the source, the spec's
`NotInitializedError`). -/
inductive LoaderError where
  | notInitialized
deriving DecidableEq, Repr

/-- Embedding of `get_bundle` from `models/loader.py`: raise when `_bundle is None`,
otherwise return the cached bundle. -/
def get_bundle {Y C D : Type} (s : Option (ModelBundle Y C D)) :
    Except LoaderError (ModelBundle Y C D) :=
  match s with
  | none => Except.error LoaderError.notInitialized
  | some b => Except.ok b

/-! ## Image decoding (`utils/preprocessing.py`, `bytes_to_pil`) -/

/-- The observable state of a PIL image for this development: its mode
(channel layout). -/
structure PILImage where
  mode : String
deriving DecidableEq, Repr

/-- Number of colour channels of a PIL mode, for the modes relevant here. -/
def PILImage.channels (img : PILImage) : Nat :=
  if img.mode = "RGB" then 3
  else if img.mode = "RGBA" ∨ img.mode = "CMYK" then 4
  else if img.mode = "L" ∨ img.mode = "P" ∨ img.mode = "1" then 1
  else 0

/-- Model of `img.convert("RGB")`: PIL conversion to 3-channel RGB. -/
def convertRGB (_img : PILImage) : PILImage := ⟨"RGB"⟩

/-- Embedding of `bytes_to_pil` from `utils/preprocessing.py`.  The external codec
`PIL.Image.open` (plus the lazy pixel load inside `convert`) enters as the
parameter `pilOpen`, which either decodes the bytes or reports the failure
message that the `except` branch interpolates into its `ValueError`. -/
def bytes_to_pil (pilOpen : List Nat → Except String PILImage)
    (image_bytes : List Nat) : Except String PILImage :=
  match pilOpen image_bytes with
  | Except.ok img => Except.ok (convertRGB img)
  | Except.error msg => Except.error ("Cannot decode image: " ++ msg)

/-! ## Request handler (`routers/predict.py`) -/

/-- Constant `SUPPORTED_CONTENT_TYPES` from `routers/predict.py`. -/
def SUPPORTED_CONTENT_TYPES : List String :=
  ["image/jpeg", "image/png", "image/webp", "image/bmp"]

/-- Constant `MAX_FILE_SIZE_BYTES` from `routers/predict.py` (10 MB). -/
def MAX_FILE_SIZE_BYTES : Nat := 10 * 1024 * 1024

/-- What the handler sends back: either the success payload or an
`HTTPException` with a status code and a detail string. -/
inductive Response where
  | success (food freshness : String) (confidence : ℚ) (detected : Bool)
  | httpError (status : Nat) (detail : String)
deriving DecidableEq, Repr

/-- The failures the `try` around `get_bundle` and `run_inference` in
`routers/predict.py` can see: Python `RuntimeError`s (the spec's
`InferenceError` plus the loader's not-initialized error). -/
inductive InferenceError where
  | inferenceError (msg : String)
deriving DecidableEq, Repr

/-- The decode-and-infer tail of `predict` (everything after the size
check): decode the bytes, fetch the bundle, run the pipeline, and map each
failure to its `HTTPException`.  Model-execution failures surface through
`infer`'s `Except`. -/
def decode_and_infer {Y C D : Type}
    (pilOpen : List Nat → Except String PILImage)
    (bundleState : Option (ModelBundle Y C D))
    (infer : ModelBundle Y C D → PILImage → Except InferenceError PredictionResult)
    (image_bytes : List Nat) : Response :=
  match bytes_to_pil pilOpen image_bytes with
  | Except.error msg => Response.httpError 400 msg
  | Except.ok img =>
    match get_bundle bundleState with
    | Except.error _ =>
      Response.httpError 500 "Model inference failed. Please try again."
    | Except.ok bundle =>
      match infer bundle img with
      | Except.error _ =>
        Response.httpError 500 "Model inference failed. Please try again."
      | Except.ok r => Response.success r.food r.freshness r.confidence r.detected

/-- Embedding of `predict` from `routers/predict.py`: content-type check, size check,
then `decode_and_infer`. -/
def predict {Y C D : Type}
    (pilOpen : List Nat → Except String PILImage)
    (bundleState : Option (ModelBundle Y C D))
    (infer : ModelBundle Y C D → PILImage → Except InferenceError PredictionResult)
    (content_type : String) (image_bytes : List Nat) : Response :=
  if ¬ SUPPORTED_CONTENT_TYPES.contains content_type then
    Response.httpError 400
      ("Unsupported content type '" ++ content_type ++
        "'. Accepted: image/bmp, image/jpeg, image/png, image/webp")
  else if MAX_FILE_SIZE_BYTES < image_bytes.length then
    Response.httpError 422
      ("File too large (" ++ toString (image_bytes.length / 1024) ++
        " KB). Max 10 MB allowed.")
  else
    decode_and_infer pilOpen bundleState infer image_bytes

/-! ## Shared helper lemmas -/

theorem round_rat_mono {x y : ℚ} (h : x ≤ y) : round x ≤ round y := by
  rw [round_eq, round_eq]
  exact Int.floor_le_floor (by linarith)

theorem round2_le_round2 {x y : ℚ} (h : x ≤ y) : round2 x ≤ round2 y := by
  unfold round2
  have hr : round (x * 100) ≤ round (y * 100) := round_rat_mono (by linarith)
  have hr' : ((round (x * 100) : ℤ) : ℚ) ≤ ((round (y * 100) : ℤ) : ℚ) := by
    exact_mod_cast hr
  linarith

theorem round4_le_round4 {x y : ℚ} (h : x ≤ y) : round4 x ≤ round4 y := by
  unfold round4
  have hr : round (x * 10000) ≤ round (y * 10000) := round_rat_mono (by linarith)
  have hr' : ((round (x * 10000) : ℤ) : ℚ) ≤ ((round (y * 10000) : ℤ) : ℚ) := by
    exact_mod_cast hr
  linarith

theorem round2_eq_self {x : ℚ} (n : ℤ) (hx : x * 100 = (n : ℚ)) : round2 x = x := by
  unfold round2
  rw [hx, round_intCast, ← hx, mul_div_cancel_right₀ _ (by norm_num : (100 : ℚ) ≠ 0)]

theorem round4_eq_self {x : ℚ} (n : ℤ) (hx : x * 10000 = (n : ℚ)) : round4 x = x := by
  unfold round4
  rw [hx, round_intCast, ← hx, mul_div_cancel_right₀ _ (by norm_num : (10000 : ℚ) ≠ 0)]

theorem crop_bbox_eq (w h x1 y1 x2 y2 padding : ℚ) :
    crop_bbox w h (x1, y1, x2, y2) padding =
      ⟨max 0 (x1 - (x2 - x1) * padding), max 0 (y1 - (y2 - y1) * padding),
       min w (x2 + (x2 - x1) * padding), min h (y2 + (y2 - y1) * padding)⟩ := rfl

/-! ## C1 — `crop_bbox` with padding 0.05 -/

/-- C1, counterexample.  The claim asserts that `cropWithPadding` yields a
crop of width and height at least 1 pixel for *every* input box, degenerate
boxes included.  On the 100×100 image and the zero-area box
`(5, 5, 5, 5)` the code pads by `0` (the padding is proportional to the
box's own size), clamps nothing, and hands PIL the empty region
`(5, 5, 5, 5)` of width 0 — not a crop of width ≥ 1. -/
theorem cropWithPadding_degenerate_counterexample :
    (cropWithPadding 100 100 (5, 5, 5, 5)).width = 0 ∧
    ¬ 1 ≤ (cropWithPadding 100 100 (5, 5, 5, 5)).width := by
  constructor <;>
    norm_num [cropWithPadding, crop_bbox_eq, CropBounds.width, min_def, max_def]

/-- C1, amended: for every box that is non-degenerate by at least one pixel
on each axis (`x1 + 1 ≤ x2`, `y1 + 1 ≤ y2`) and lies within the image,
`cropWithPadding` returns bounds clamped inside the image whose width and
height are each at least 1 pixel.  (For degenerate or fully outside boxes
the code can produce an empty or inverted region — see the
counterexample.) -/
theorem cropWithPadding_valid (w h x1 y1 x2 y2 : ℚ)
    (hx0 : 0 ≤ x1) (hx12 : x1 + 1 ≤ x2) (hxw : x2 ≤ w)
    (hy0 : 0 ≤ y1) (hy12 : y1 + 1 ≤ y2) (hyh : y2 ≤ h) :
    0 ≤ (cropWithPadding w h (x1, y1, x2, y2)).x1 ∧
    (cropWithPadding w h (x1, y1, x2, y2)).x2 ≤ w ∧
    0 ≤ (cropWithPadding w h (x1, y1, x2, y2)).y1 ∧
    (cropWithPadding w h (x1, y1, x2, y2)).y2 ≤ h ∧
    1 ≤ (cropWithPadding w h (x1, y1, x2, y2)).width ∧
    1 ≤ (cropWithPadding w h (x1, y1, x2, y2)).height := by
  unfold cropWithPadding
  rw [crop_bbox_eq]
  have hpx : (0 : ℚ) ≤ (x2 - x1) * (5/100) := mul_nonneg (by linarith) (by norm_num)
  have hpy : (0 : ℚ) ≤ (y2 - y1) * (5/100) := mul_nonneg (by linarith) (by norm_num)
  have hxlo : max 0 (x1 - (x2 - x1) * (5/100)) ≤ x1 := max_le hx0 (by linarith)
  have hxhi : x2 ≤ min w (x2 + (x2 - x1) * (5/100)) := le_min (by linarith) (by linarith)
  have hylo : max 0 (y1 - (y2 - y1) * (5/100)) ≤ y1 := max_le hy0 (by linarith)
  have hyhi : y2 ≤ min h (y2 + (y2 - y1) * (5/100)) := le_min (by linarith) (by linarith)
  refine ⟨le_max_left _ _, min_le_left _ _, le_max_left _ _, min_le_left _ _, ?_, ?_⟩
  · show (1 : ℚ) ≤ min w (x2 + (x2 - x1) * (5/100)) - max 0 (x1 - (x2 - x1) * (5/100))
    linarith
  · show (1 : ℚ) ≤ min h (y2 + (y2 - y1) * (5/100)) - max 0 (y1 - (y2 - y1) * (5/100))
    linarith

/-- C1, witness for the amended theorem at the 100×100 image and box
`(10, 10, 50, 50)`. -/
theorem cropWithPadding_valid_witness :
    0 ≤ (cropWithPadding 100 100 (10, 10, 50, 50)).x1 ∧
    (cropWithPadding 100 100 (10, 10, 50, 50)).x2 ≤ 100 ∧
    0 ≤ (cropWithPadding 100 100 (10, 10, 50, 50)).y1 ∧
    (cropWithPadding 100 100 (10, 10, 50, 50)).y2 ≤ 100 ∧
    1 ≤ (cropWithPadding 100 100 (10, 10, 50, 50)).width ∧
    1 ≤ (cropWithPadding 100 100 (10, 10, 50, 50)).height :=
  cropWithPadding_valid 100 100 10 10 50 50 (by norm_num) (by norm_num)
    (by norm_num) (by norm_num) (by norm_num) (by norm_num)

/-! ## C3 — the heuristic freshness rules -/

/-- C3: `_heuristic_freshness` evaluates its rules in the stated order on the
crop's mean saturation and mean value; with the uniform draw
`r ∈ [0, 0.20]`, the first rule yields `"fresh"` with confidence
`round(0.75 + r, 2) ∈ [0.75, 0.95]`, the second `"semi-fresh"` with
`round(0.55 + r, 2) ∈ [0.55, 0.75]`, and the fallback `"spoiled"` with
`round(0.60 + r, 2) ∈ [0.60, 0.80]`. -/
theorem heuristic_freshness_spec (saturation value r : ℚ)
    (hr0 : 0 ≤ r) (hr1 : r ≤ 1/5) :
    (80 < saturation ∧ 60 < value ∧ value < 220 →
      heuristic_freshness saturation value r = ("fresh", round2 (75/100 + r)) ∧
      75/100 ≤ round2 (75/100 + r) ∧ round2 (75/100 + r) ≤ 95/100) ∧
    (¬(80 < saturation ∧ 60 < value ∧ value < 220) → 40 < saturation →
      heuristic_freshness saturation value r = ("semi-fresh", round2 (55/100 + r)) ∧
      55/100 ≤ round2 (55/100 + r) ∧ round2 (55/100 + r) ≤ 75/100) ∧
    (¬(80 < saturation ∧ 60 < value ∧ value < 220) → ¬ 40 < saturation →
      heuristic_freshness saturation value r = ("spoiled", round2 (60/100 + r)) ∧
      60/100 ≤ round2 (60/100 + r) ∧ round2 (60/100 + r) ≤ 80/100) := by
  have e55 : round2 ((55:ℚ)/100) = (55:ℚ)/100 := round2_eq_self 55 (by norm_num)
  have e60 : round2 ((60:ℚ)/100) = (60:ℚ)/100 := round2_eq_self 60 (by norm_num)
  have e75 : round2 ((75:ℚ)/100) = (75:ℚ)/100 := round2_eq_self 75 (by norm_num)
  have e80 : round2 ((80:ℚ)/100) = (80:ℚ)/100 := round2_eq_self 80 (by norm_num)
  have e95 : round2 ((95:ℚ)/100) = (95:ℚ)/100 := round2_eq_self 95 (by norm_num)
  have lo75 : (75 : ℚ)/100 ≤ round2 (75/100 + r) := by
    have h := round2_le_round2 (show (75:ℚ)/100 ≤ 75/100 + r by linarith)
    rwa [e75] at h
  have hi75 : round2 (75/100 + r) ≤ 95/100 := by
    have h := round2_le_round2 (show (75:ℚ)/100 + r ≤ 95/100 by linarith)
    rwa [e95] at h
  have lo55 : (55 : ℚ)/100 ≤ round2 (55/100 + r) := by
    have h := round2_le_round2 (show (55:ℚ)/100 ≤ 55/100 + r by linarith)
    rwa [e55] at h
  have hi55 : round2 (55/100 + r) ≤ 75/100 := by
    have h := round2_le_round2 (show (55:ℚ)/100 + r ≤ 75/100 by linarith)
    rwa [e75] at h
  have lo60 : (60 : ℚ)/100 ≤ round2 (60/100 + r) := by
    have h := round2_le_round2 (show (60:ℚ)/100 ≤ 60/100 + r by linarith)
    rwa [e60] at h
  have hi60 : round2 (60/100 + r) ≤ 80/100 := by
    have h := round2_le_round2 (show (60:ℚ)/100 + r ≤ 80/100 by linarith)
    rwa [e80] at h
  refine ⟨?_, ?_, ?_⟩
  · intro h1
    unfold heuristic_freshness
    rw [if_pos (by tauto)]
    exact ⟨rfl, lo75, hi75⟩
  · intro h1 h2
    unfold heuristic_freshness
    rw [if_neg (by tauto), if_pos h2]
    exact ⟨rfl, lo55, hi55⟩
  · intro h1 h2
    unfold heuristic_freshness
    rw [if_neg (by tauto), if_neg h2]
    exact ⟨rfl, lo60, hi60⟩

/-- C3, witness: saturation 150, value 140, draw 0.10 falls under the first
rule and returns `"fresh"` with confidence `0.85`. -/
theorem heuristic_freshness_spec_witness :
    heuristic_freshness 150 140 (1/10) = ("fresh", round2 (75/100 + 1/10)) ∧
    75/100 ≤ round2 (75/100 + 1/10) ∧ round2 (75/100 + 1/10) ≤ 95/100 :=
  (heuristic_freshness_spec 150 140 (1/10) (by norm_num) (by norm_num)).1
    (by norm_num)

/-! ## Fold lemmas for the best-candidate loop -/

theorem foldl_stepBest_conf_lt (fl : List String) (c : ℚ) :
    ∀ (dets : List Detection) (s : BestState), s.best_conf < c →
      (∀ d ∈ dets, survives fl d = true → d.conf < c) →
      (dets.foldl (stepBest fl) s).best_conf < c := by
  intro dets
  induction dets with
  | nil =>
    intro s hs _
    simpa using hs
  | cons d rest ih =>
    intro s hs hall
    rw [List.foldl_cons]
    apply ih
    · unfold stepBest
      by_cases hd : survives fl d = true
      · rw [if_pos hd]
        by_cases hlt : s.best_conf < d.conf
        · rw [if_pos hlt]
          exact hall d (List.mem_cons_self d rest) hd
        · rw [if_neg hlt]
          exact hs
      · rw [if_neg hd]
        exact hs
    · intro e he hse
      exact hall e (List.mem_cons_of_mem d he) hse

theorem foldl_stepBest_filter (fl : List String) :
    ∀ (dets : List Detection) (s : BestState),
      dets.foldl (stepBest fl) s = (dets.filter (survives fl)).foldl (stepBest fl) s := by
  intro dets
  induction dets with
  | nil => intro s; rfl
  | cons d rest ih =>
    intro s
    by_cases hd : survives fl d = true
    · rw [List.foldl_cons, List.filter_cons_of_pos hd, List.foldl_cons, ih]
    · have hstep : stepBest fl s d = s := by
        unfold stepBest
        rw [if_neg hd]
      rw [List.foldl_cons, hstep, List.filter_cons_of_neg (by simpa using hd), ih]

theorem stepBest_update (fl : List String) (s : BestState) (d : Detection)
    (hsurv : survives fl d = true) (hlt : s.best_conf < d.conf) :
    stepBest fl s d = ⟨some d.box, d.conf, underscoreSpaces (lower d.name)⟩ := by
  unfold stepBest
  rw [if_pos hsurv, if_pos hlt]

theorem foldl_stepBest_no_update (fl : List String) :
    ∀ (l : List Detection) (s : BestState),
      (∀ e ∈ l, e.conf ≤ s.best_conf) → l.foldl (stepBest fl) s = s := by
  intro l
  induction l with
  | nil => intro s _; rfl
  | cons e rest ih =>
    intro s h
    have hstep : stepBest fl s e = s := by
      unfold stepBest
      by_cases he : survives fl e = true
      · rw [if_pos he, if_neg (not_lt.mpr (h e (List.mem_cons_self e rest)))]
      · rw [if_neg he]
    rw [List.foldl_cons, hstep]
    exact ih s (fun e' he' => h e' (List.mem_cons_of_mem e he'))

/-! ## C2 — "not detected" results -/

/-- C2: whenever every detector candidate that survives the food filter has
confidence below `0.10` (in particular when no candidate survives, or the
detector returned nothing at all), `run_inference` returns
`food="unknown"`, `freshness="unknown"`, `confidence=0.0`,
`detected=false`, and no bounding box. -/
theorem run_inference_not_detected (w h : ℚ) (estimate : CropBounds → String × ℚ)
    (foodLabels : List String) (dets : List Detection)
    (hall : ∀ d ∈ dets, survives foodLabels d = true → d.conf < 10/100) :
    run_inference w h estimate foodLabels dets =
      ⟨"unknown", "unknown", 0, false, none⟩ := by
  have hinit : initBest.best_conf < 10/100 := by
    show (0 : ℚ) < 10/100
    norm_num
  have hconf : (selectBest foodLabels dets).best_conf < 10/100 :=
    foldl_stepBest_conf_lt foodLabels (10/100) dets initBest hinit hall
  unfold run_inference
  rcases hbox : (selectBest foodLabels dets).best_box with _ | b
  · simp only [hbox]
  · simp only [hbox, if_pos hconf]

/-- C2, witness: a single surviving candidate of confidence `0.05` yields
the "not detected" result. -/
theorem run_inference_not_detected_witness :
    run_inference 100 100 (fun _ => ("fresh", 4/5)) FOOD_LABELS
        [⟨46, "banana", 5/100, ⟨1, 2, 3, 4⟩⟩] =
      ⟨"unknown", "unknown", 0, false, none⟩ :=
  run_inference_not_detected 100 100 (fun _ => ("fresh", 4/5)) FOOD_LABELS
    [⟨46, "banana", 5/100, ⟨1, 2, 3, 4⟩⟩]
    (by intro d hd _; simp only [List.mem_singleton] at hd; rw [hd]; norm_num)

/-! ## C4 — the confidence blend -/

/-- C4: on every successful two-stage run (a candidate was selected with
confidence at least `0.10`), the returned confidence equals
`round(best_conf*0.4 + freshness_conf*0.6, 4)`, and when both stage
confidences lie in `[0, 1]` the blended confidence lies in `[0, 1]`. -/
theorem run_inference_blend (w h : ℚ) (estimate : CropBounds → String × ℚ)
    (foodLabels : List String) (dets : List Detection) (b : Box)
    (hbox : (selectBest foodLabels dets).best_box = some b)
    (hconf : 10/100 ≤ (selectBest foodLabels dets).best_conf) :
    (run_inference w h estimate foodLabels dets).confidence =
      round4 ((selectBest foodLabels dets).best_conf * (4/10) +
        (estimate (crop_bbox w h (b.x1, b.y1, b.x2, b.y2) (5/100))).2 * (6/10)) ∧
    ((selectBest foodLabels dets).best_conf ≤ 1 →
      0 ≤ (estimate (crop_bbox w h (b.x1, b.y1, b.x2, b.y2) (5/100))).2 →
      (estimate (crop_bbox w h (b.x1, b.y1, b.x2, b.y2) (5/100))).2 ≤ 1 →
      0 ≤ (run_inference w h estimate foodLabels dets).confidence ∧
      (run_inference w h estimate foodLabels dets).confidence ≤ 1) := by
  have hred : run_inference w h estimate foodLabels dets =
      ⟨(selectBest foodLabels dets).best_label,
       (estimate (crop_bbox w h (b.x1, b.y1, b.x2, b.y2) (5/100))).1,
       round4 ((selectBest foodLabels dets).best_conf * (4/10) +
         (estimate (crop_bbox w h (b.x1, b.y1, b.x2, b.y2) (5/100))).2 * (6/10)),
       true, some b⟩ := by
    unfold run_inference
    simp only [hbox, if_neg (not_lt.mpr hconf)]
  rw [hred]
  refine ⟨rfl, ?_⟩
  intro ha hf0 hf1
  have hq0 : (0 : ℚ) ≤ (selectBest foodLabels dets).best_conf * (4/10) +
      (estimate (crop_bbox w h (b.x1, b.y1, b.x2, b.y2) (5/100))).2 * (6/10) := by
    nlinarith
  have hq1 : (selectBest foodLabels dets).best_conf * (4/10) +
      (estimate (crop_bbox w h (b.x1, b.y1, b.x2, b.y2) (5/100))).2 * (6/10) ≤ 1 := by
    nlinarith
  have ez : round4 (0 : ℚ) = 0 := round4_eq_self 0 (by norm_num)
  have eo : round4 (1 : ℚ) = 1 := round4_eq_self 10000 (by norm_num)
  constructor
  · have hle := round4_le_round4 hq0
    rwa [ez] at hle
  · have hle := round4_le_round4 hq1
    rwa [eo] at hle

/-- C4, witness: one surviving candidate of confidence `0.5` and a
freshness estimate of confidence `0.8` blend to
`round(0.5*0.4 + 0.8*0.6, 4) = 0.68 ∈ [0, 1]`. -/
theorem run_inference_blend_witness :
    (run_inference 100 100 (fun _ => ("fresh", 8/10)) FOOD_LABELS
        [⟨46, "banana", 5/10, ⟨1, 2, 3, 4⟩⟩]).confidence =
      round4 ((5/10 : ℚ) * (4/10) + (8/10 : ℚ) * (6/10)) ∧
    0 ≤ (run_inference 100 100 (fun _ => ("fresh", 8/10)) FOOD_LABELS
        [⟨46, "banana", 5/10, ⟨1, 2, 3, 4⟩⟩]).confidence ∧
    (run_inference 100 100 (fun _ => ("fresh", 8/10)) FOOD_LABELS
        [⟨46, "banana", 5/10, ⟨1, 2, 3, 4⟩⟩]).confidence ≤ 1 := by
  have hsel : selectBest FOOD_LABELS [⟨46, "banana", 5/10, ⟨1, 2, 3, 4⟩⟩] =
      ⟨some ⟨1, 2, 3, 4⟩, 5/10, underscoreSpaces (lower "banana")⟩ := by
    show stepBest FOOD_LABELS initBest ⟨46, "banana", 5/10, ⟨1, 2, 3, 4⟩⟩ =
      ⟨some ⟨1, 2, 3, 4⟩, 5/10, underscoreSpaces (lower "banana")⟩
    unfold stepBest
    rw [if_pos (by decide), if_pos (by norm_num [initBest])]
  have h := run_inference_blend 100 100 (fun _ => ("fresh", 8/10)) FOOD_LABELS
    [⟨46, "banana", 5/10, ⟨1, 2, 3, 4⟩⟩] ⟨1, 2, 3, 4⟩
    (by rw [hsel]) (by rw [hsel]; norm_num)
  refine ⟨?_, ?_⟩
  · have h1 := h.1
    rw [hsel] at h1
    exact h1
  · have h2 := h.2 (by rw [hsel]; norm_num) (by norm_num) (by norm_num)
    exact h2

/-! ## C5 — the food filter and best-candidate selection -/

/-- C5, counterexample.  The claim asserts that among the surviving
candidates the one with strictly highest confidence is selected (first on
ties).  The loop, however, starts from `best_conf = 0.0` and only updates
on `conf > best_conf`, so a surviving candidate whose confidence is `0.0`
is never selected: on the one-element detector output below the unique
survivor has the (tied-)highest confidence `0.0`, yet `best_box` stays
`None`. -/
theorem selectBest_zero_conf_counterexample :
    survives FOOD_LABELS ⟨46, "banana", 0, ⟨1, 2, 3, 4⟩⟩ = true ∧
    (selectBest FOOD_LABELS [⟨46, "banana", 0, ⟨1, 2, 3, 4⟩⟩]).best_box = none := by
  constructor
  · decide
  · show (stepBest FOOD_LABELS initBest ⟨46, "banana", 0, ⟨1, 2, 3, 4⟩⟩).best_box = none
    unfold stepBest
    rw [if_pos (by decide), if_neg (by norm_num [initBest])]
    rfl

/-- C5, amended: `run_inference`'s selection loop ignores exactly the
candidates that fail the food filter (class id outside `COCO_FOOD_CLASSES`
and lower-cased name not among the bundle's lower-cased food labels), and
among the survivors it selects the first candidate, in detector output
order, whose confidence is maximal — provided that maximal confidence is
strictly positive (an all-zero-confidence survivor set selects nothing;
see the counterexample). -/
theorem selectBest_filter_and_first_max (fl : List String)
    (dets l1 l2 : List Detection) (d : Detection)
    (hS : dets.filter (survives fl) = l1 ++ d :: l2)
    (h1 : ∀ e ∈ l1, e.conf < d.conf)
    (h2 : ∀ e ∈ l2, e.conf ≤ d.conf)
    (hd : 0 < d.conf) :
    selectBest fl dets = selectBest fl (dets.filter (survives fl)) ∧
    selectBest fl dets = ⟨some d.box, d.conf, underscoreSpaces (lower d.name)⟩ := by
  have hfilter : selectBest fl dets = selectBest fl (dets.filter (survives fl)) :=
    foldl_stepBest_filter fl dets initBest
  refine ⟨hfilter, ?_⟩
  have hsurv : survives fl d = true := by
    have hmem : d ∈ dets.filter (survives fl) := by
      rw [hS]
      exact List.mem_append_right l1 (List.mem_cons_self d l2)
    exact List.of_mem_filter hmem
  rw [hfilter]
  unfold selectBest
  rw [hS, List.foldl_append, List.foldl_cons]
  have hlt : (l1.foldl (stepBest fl) initBest).best_conf < d.conf :=
    foldl_stepBest_conf_lt fl d.conf l1 initBest hd (fun e he _ => h1 e he)
  rw [stepBest_update fl (l1.foldl (stepBest fl) initBest) d hsurv hlt]
  exact foldl_stepBest_no_update fl l2 _ h2

/-- C5, witness: on a detector output containing one non-food candidate and
three food candidates — confidences `0.3`, `0.5`, and `0.5` again — the
non-food candidate is discarded and the first of the two tied
maximal-confidence survivors is selected. -/
theorem selectBest_filter_and_first_max_witness :
    selectBest FOOD_LABELS
        [⟨0, "person", 9/10, ⟨0, 0, 1, 1⟩⟩, ⟨46, "banana", 3/10, ⟨1, 1, 2, 2⟩⟩,
         ⟨47, "apple", 5/10, ⟨2, 2, 3, 3⟩⟩, ⟨48, "orange", 5/10, ⟨3, 3, 4, 4⟩⟩] =
      selectBest FOOD_LABELS
        ([⟨0, "person", 9/10, ⟨0, 0, 1, 1⟩⟩, ⟨46, "banana", 3/10, ⟨1, 1, 2, 2⟩⟩,
          ⟨47, "apple", 5/10, ⟨2, 2, 3, 3⟩⟩, ⟨48, "orange", 5/10, ⟨3, 3, 4, 4⟩⟩].filter
          (survives FOOD_LABELS)) ∧
    selectBest FOOD_LABELS
        [⟨0, "person", 9/10, ⟨0, 0, 1, 1⟩⟩, ⟨46, "banana", 3/10, ⟨1, 1, 2, 2⟩⟩,
         ⟨47, "apple", 5/10, ⟨2, 2, 3, 3⟩⟩, ⟨48, "orange", 5/10, ⟨3, 3, 4, 4⟩⟩] =
      ⟨some ⟨2, 2, 3, 3⟩, 5/10, underscoreSpaces (lower "apple")⟩ := by
  have hfilt : [⟨0, "person", 9/10, ⟨0, 0, 1, 1⟩⟩, ⟨46, "banana", 3/10, ⟨1, 1, 2, 2⟩⟩,
      (⟨47, "apple", 5/10, ⟨2, 2, 3, 3⟩⟩ : Detection),
      ⟨48, "orange", 5/10, ⟨3, 3, 4, 4⟩⟩].filter (survives FOOD_LABELS) =
      [⟨46, "banana", 3/10, ⟨1, 1, 2, 2⟩⟩] ++
        (⟨47, "apple", 5/10, ⟨2, 2, 3, 3⟩⟩ : Detection) ::
          [⟨48, "orange", 5/10, ⟨3, 3, 4, 4⟩⟩] := by
    rw [List.filter_cons_of_neg (by decide), List.filter_cons_of_pos (by decide),
      List.filter_cons_of_pos (by decide), List.filter_cons_of_pos (by decide)]
    rfl
  exact selectBest_filter_and_first_max FOOD_LABELS _ _ _ _ hfilt
    (by
      intro e he
      simp only [List.mem_singleton] at he
      rw [he]
      norm_num)
    (by
      intro e he
      simp only [List.mem_singleton] at he
      rw [he])
    (by norm_num)

/-! ## C6 — loader idempotence -/

/-- C6: `load_models` is idempotent over the module-level singleton.  The
first call (state `none`) builds the bundle and caches exactly the bundle
it returns; any call on a cached state returns the cached bundle with the
state unchanged, whatever its arguments (different paths, device string,
and even different loading procedures); in particular a second call after
the first returns the identical first bundle. -/
theorem load_models_idempotent {Y C D : Type}
    (resolveDevice resolveDevice2 : String → D)
    (loadYolo loadYolo2 : String → D → Y)
    (loadClassifier loadClassifier2 : String → D → Option C)
    (yp1 fp1 ds1 yp2 fp2 ds2 : String) :
    (load_models resolveDevice loadYolo loadClassifier yp1 fp1 ds1
        (none : Option (ModelBundle Y C D))).2 =
      some (load_models resolveDevice loadYolo loadClassifier yp1 fp1 ds1 none).1 ∧
    (∀ b : ModelBundle Y C D,
      load_models resolveDevice2 loadYolo2 loadClassifier2 yp2 fp2 ds2 (some b) =
        (b, some b)) ∧
    (load_models resolveDevice2 loadYolo2 loadClassifier2 yp2 fp2 ds2
        (load_models resolveDevice loadYolo loadClassifier yp1 fp1 ds1
          (none : Option (ModelBundle Y C D))).2).1 =
      (load_models resolveDevice loadYolo loadClassifier yp1 fp1 ds1 none).1 :=
  ⟨rfl, fun _ => rfl, rfl⟩

/-! ## C7 — `get_bundle` -/

/-- C7: `get_bundle` raises `NotInitializedError` on the uninitialised
state (the only state before any load has completed), returns the cached
bundle on every initialised state, and after any `load_models` call —
which always leaves an initialised state — it returns exactly the bundle
that call returned, never failing. -/
theorem get_bundle_spec {Y C D : Type}
    (resolveDevice : String → D) (loadYolo : String → D → Y)
    (loadClassifier : String → D → Option C)
    (yp fp ds : String) :
    get_bundle (none : Option (ModelBundle Y C D)) =
      Except.error LoaderError.notInitialized ∧
    (∀ b : ModelBundle Y C D, get_bundle (some b) = Except.ok b) ∧
    (∀ s : Option (ModelBundle Y C D),
      get_bundle (load_models resolveDevice loadYolo loadClassifier yp fp ds s).2 =
        Except.ok (load_models resolveDevice loadYolo loadClassifier yp fp ds s).1) := by
  refine ⟨rfl, fun _ => rfl, ?_⟩
  intro s
  cases s with
  | none => rfl
  | some b => rfl

/-! ## C8 — `bytes_to_pil` -/

/-- C8: when the codec decodes the bytes, `bytes_to_pil` returns the
`convert("RGB")` of the decoded image, which has 3 channels; when the codec
fails, it returns a `DecodeError` (`ValueError` carrying
`"Cannot decode image: …"`); and for every byte string one of these two
outcomes occurs — there is no third. -/
theorem bytes_to_pil_spec (pilOpen : List Nat → Except String PILImage)
    (bs : List Nat) :
    (∀ img, pilOpen bs = Except.ok img →
      bytes_to_pil pilOpen bs = Except.ok (convertRGB img) ∧
      (convertRGB img).channels = 3) ∧
    (∀ msg, pilOpen bs = Except.error msg →
      bytes_to_pil pilOpen bs = Except.error ("Cannot decode image: " ++ msg)) ∧
    ((∃ img, bytes_to_pil pilOpen bs = Except.ok img ∧ img.channels = 3) ∨
      (∃ msg, bytes_to_pil pilOpen bs = Except.error msg)) := by
  refine ⟨?_, ?_, ?_⟩
  · intro img himg
    unfold bytes_to_pil
    rw [himg]
    exact ⟨rfl, rfl⟩
  · intro msg hmsg
    unfold bytes_to_pil
    rw [hmsg]
  · unfold bytes_to_pil
    cases hopen : pilOpen bs with
    | ok img => exact Or.inl ⟨convertRGB img, rfl, rfl⟩
    | error msg => exact Or.inr ⟨"Cannot decode image: " ++ msg, rfl⟩

/-- C8, witness: a codec that decodes the bytes `[0]` to a 1-channel
grayscale image makes `bytes_to_pil` return the 3-channel RGB conversion,
and a codec that rejects them makes it fail with the decode error. -/
theorem bytes_to_pil_spec_witness :
    bytes_to_pil (fun _ => Except.ok ⟨"L"⟩) [0] = Except.ok ⟨"RGB"⟩ ∧
    PILImage.channels ⟨"RGB"⟩ = 3 ∧
    bytes_to_pil (fun _ => Except.error "cannot identify image file") [0] =
      Except.error "Cannot decode image: cannot identify image file" := by
  have h1 := (bytes_to_pil_spec (fun _ => Except.ok ⟨"L"⟩) [0]).1 ⟨"L"⟩ rfl
  have h2 := (bytes_to_pil_spec
    (fun _ => Except.error "cannot identify image file") [0]).2.1
    "cannot identify image file" rfl
  exact ⟨h1.1, h1.2, h2⟩

/-! ## C9 — error propagation at the request boundary -/

/-- C9: a failure of detector/classifier execution (an `Except.error` of the
pipeline stage, the `RuntimeError` the handler catches) reaching the request
boundary is translated into a 500 response whose detail is the fixed generic
message, independent of the failure; and every outcome of `predict` is either
a success payload or one of the client-visible statuses 400, 422, 500 —
nothing else leaks to the client. -/
theorem predict_error_boundary {Y C D : Type}
    (pilOpen : List Nat → Except String PILImage)
    (bundleState : Option (ModelBundle Y C D))
    (infer : ModelBundle Y C D → PILImage → Except InferenceError PredictionResult)
    (content_type : String) (image_bytes : List Nat) :
    (∀ (bundle : ModelBundle Y C D) (img : PILImage) (e : InferenceError),
      SUPPORTED_CONTENT_TYPES.contains content_type = true →
      image_bytes.length ≤ MAX_FILE_SIZE_BYTES →
      bytes_to_pil pilOpen image_bytes = Except.ok img →
      bundleState = some bundle →
      infer bundle img = Except.error e →
      predict pilOpen bundleState infer content_type image_bytes =
        Response.httpError 500 "Model inference failed. Please try again.") ∧
    ((∃ f fr c dt, predict pilOpen bundleState infer content_type image_bytes =
        Response.success f fr c dt) ∨
      (∃ st detail, (st = 400 ∨ st = 422 ∨ st = 500) ∧
        predict pilOpen bundleState infer content_type image_bytes =
          Response.httpError st detail)) := by
  constructor
  · intro bundle img e hct hsize hdec hbundle hinf
    unfold predict
    rw [if_neg (not_not_intro hct), if_neg (not_lt.mpr hsize)]
    unfold decode_and_infer
    rw [hbundle]
    simp only [hdec, get_bundle, hinf]
  · unfold predict
    by_cases hct : SUPPORTED_CONTENT_TYPES.contains content_type = true
    · rw [if_neg (not_not_intro hct)]
      by_cases hsize : MAX_FILE_SIZE_BYTES < image_bytes.length
      · rw [if_pos hsize]
        exact Or.inr ⟨422, _, Or.inr (Or.inl rfl), rfl⟩
      · rw [if_neg hsize]
        unfold decode_and_infer
        cases hdec : bytes_to_pil pilOpen image_bytes with
        | error msg =>
          simp only [hdec]
          exact Or.inr ⟨400, msg, Or.inl rfl, rfl⟩
        | ok img =>
          simp only [hdec]
          cases hb : get_bundle bundleState with
          | error le =>
            simp only [hb]
            exact Or.inr ⟨500, _, Or.inr (Or.inr rfl), rfl⟩
          | ok bundle =>
            simp only [hb]
            cases hinf : infer bundle img with
            | error e =>
              simp only [hinf]
              exact Or.inr ⟨500, _, Or.inr (Or.inr rfl), rfl⟩
            | ok r =>
              simp only [hinf]
              exact Or.inl ⟨r.food, r.freshness, r.confidence, r.detected, rfl⟩
    · rw [if_pos hct]
      exact Or.inr ⟨400, _, Or.inl rfl, rfl⟩

/-- C9, witness: a pipeline stage that fails is reported as the generic
500 response. -/
theorem predict_error_boundary_witness :
    predict (fun _ => Except.ok ⟨"RGB"⟩)
        (some (⟨(), none, (), FOOD_LABELS, ["fresh", "semi-fresh", "spoiled"]⟩ :
          ModelBundle Unit Unit Unit))
        (fun _ _ => Except.error (InferenceError.inferenceError "shape mismatch"))
        "image/png" [0] =
      Response.httpError 500 "Model inference failed. Please try again." :=
  (predict_error_boundary (fun _ => Except.ok ⟨"RGB"⟩)
      (some ⟨(), none, (), FOOD_LABELS, ["fresh", "semi-fresh", "spoiled"]⟩)
      (fun _ _ => Except.error (InferenceError.inferenceError "shape mismatch"))
      "image/png" [0]).1
    ⟨(), none, (), FOOD_LABELS, ["fresh", "semi-fresh", "spoiled"]⟩
    (convertRGB ⟨"RGB"⟩) (InferenceError.inferenceError "shape mismatch")
    (by decide) (by decide) rfl rfl rfl

/-! ## C10 — the upload size check -/

/-- C10: with a supported content type, `predict` rejects with the 422
"too large" error — reporting `len // 1024` KB — exactly when the byte
length strictly exceeds `MAX_FILE_SIZE_BYTES = 10*1024*1024`; any upload of
at most that size (so an exactly-10 MB upload in particular) proceeds to
the decode-and-infer stage, which never produces a 422. -/
theorem predict_size_check {Y C D : Type}
    (pilOpen : List Nat → Except String PILImage)
    (bundleState : Option (ModelBundle Y C D))
    (infer : ModelBundle Y C D → PILImage → Except InferenceError PredictionResult)
    (content_type : String) (image_bytes : List Nat)
    (hct : SUPPORTED_CONTENT_TYPES.contains content_type = true) :
    (MAX_FILE_SIZE_BYTES < image_bytes.length →
      predict pilOpen bundleState infer content_type image_bytes =
        Response.httpError 422
          ("File too large (" ++ toString (image_bytes.length / 1024) ++
            " KB). Max 10 MB allowed.")) ∧
    (image_bytes.length ≤ MAX_FILE_SIZE_BYTES →
      predict pilOpen bundleState infer content_type image_bytes =
        decode_and_infer pilOpen bundleState infer image_bytes) ∧
    (∀ detail, decode_and_infer pilOpen bundleState infer image_bytes ≠
      Response.httpError 422 detail) ∧
    MAX_FILE_SIZE_BYTES = 10 * 1024 * 1024 := by
  refine ⟨?_, ?_, ?_, rfl⟩
  · intro hsize
    unfold predict
    rw [if_neg (not_not_intro hct), if_pos hsize]
  · intro hsize
    unfold predict
    rw [if_neg (not_not_intro hct), if_neg (not_lt.mpr hsize)]
  · intro detail
    unfold decode_and_infer
    cases hdec : bytes_to_pil pilOpen image_bytes with
    | error msg => simp
    | ok img =>
      simp only []
      cases hb : get_bundle bundleState with
      | error le => simp
      | ok bundle =>
        simp only []
        cases hinf : infer bundle img with
        | error e => simp
        | ok r => simp

/-- C10, witness: one byte over 10 MB is rejected with the 422 error and
the size reported in KB, while exactly 10 MB passes the size check and
proceeds to decoding. -/
theorem predict_size_check_witness :
    predict (fun _ => Except.error "bad bytes")
        (none : Option (ModelBundle Unit Unit Unit))
        (fun _ _ => Except.error (InferenceError.inferenceError "unused"))
        "image/jpeg" (List.replicate (10 * 1024 * 1024 + 1) 0) =
      Response.httpError 422
        ("File too large (" ++
          toString ((List.replicate (10 * 1024 * 1024 + 1) (0 : Nat)).length / 1024) ++
          " KB). Max 10 MB allowed.") ∧
    predict (fun _ => Except.error "bad bytes")
        (none : Option (ModelBundle Unit Unit Unit))
        (fun _ _ => Except.error (InferenceError.inferenceError "unused"))
        "image/jpeg" (List.replicate (10 * 1024 * 1024) 0) =
      decode_and_infer (fun _ => Except.error "bad bytes")
        (none : Option (ModelBundle Unit Unit Unit))
        (fun _ _ => Except.error (InferenceError.inferenceError "unused"))
        (List.replicate (10 * 1024 * 1024) 0) := by
  constructor
  · exact (predict_size_check (fun _ => Except.error "bad bytes")
      (none : Option (ModelBundle Unit Unit Unit))
      (fun _ _ => Except.error (InferenceError.inferenceError "unused"))
      "image/jpeg" (List.replicate (10 * 1024 * 1024 + 1) 0) (by decide)).1
      (by unfold MAX_FILE_SIZE_BYTES; rw [List.length_replicate]; omega)
  · exact (predict_size_check (fun _ => Except.error "bad bytes")
      (none : Option (ModelBundle Unit Unit Unit))
      (fun _ _ => Except.error (InferenceError.inferenceError "unused"))
      "image/jpeg" (List.replicate (10 * 1024 * 1024) 0) (by decide)).2.1
      (by unfold MAX_FILE_SIZE_BYTES; rw [List.length_replicate])

end FoodFreshness
